import Mathlib

/-!
Verification development for the rapidl backend's credit ledger and
generation-job pipeline.  The Rust sources are shallowly embedded:

* `Credits` module of `common-types-accounts/src/lib.rs`
  (`query_credits_result_with_conn`, `get_total_credits_with_conn`,
  `decrement_total_credits`);
* the generation worker (`aws-lambda-generate/src/generate.rs` and
  `aws-lambda-generate/src/main.rs`: `generate`, `flag_as_failure`, the
  per-record part of `handler`);
* the user-facing delete endpoint
  (`common-types-accounts/src/routes/generated/content.rs`, `delete_request`).

Conventions of the embedding:
* `NaiveDT` models chrono's `NaiveDateTime`: whole seconds plus a
  sub-second nanosecond component, compared lexicographically;
  `timestamp` truncates to whole seconds exactly as chrono's
  `timestamp()` does.
* Database tables are lists of row structures; SQL filters / updates /
  deletes become list operations keyed the same way the diesel queries are.
* Infrastructure outcomes (connection pools, redis commands, S3, the
  otherwise opaque generator) are supplied by explicit environment
  records of booleans / results, one per fallible call site, in the
  order the source performs them.
* Rust `unwrap()` on a fallible result is embedded as an explicit
  `panicked` outcome variant.
* UUID job ids are modelled as `Nat`; the string-parsing step
  (`uuid::Uuid::try_parse`), which only fails on malformed input, is not
  modelled — all claims concern well-formed ids.
-/

namespace Rapidl

/-- chrono `NaiveDateTime`: whole seconds since the epoch plus sub-second
nanoseconds. -/
structure NaiveDT where
  secs : Int
  nanos : Nat
  deriving DecidableEq

/-- Strict chronological order on `NaiveDT` (lexicographic, as chrono
compares timestamps at full precision). -/
def NaiveDT.lt (a b : NaiveDT) : Prop :=
  a.secs < b.secs ∨ (a.secs = b.secs ∧ a.nanos < b.nanos)

instance NaiveDT.decLt (a b : NaiveDT) : Decidable (NaiveDT.lt a b) :=
  inferInstanceAs (Decidable (a.secs < b.secs ∨ (a.secs = b.secs ∧ a.nanos < b.nanos)))

/-- chrono `timestamp()`: truncation to whole seconds. -/
def NaiveDT.timestamp (t : NaiveDT) : Int := t.secs

/-- chrono `DateTime::from_timestamp(s, 0).naive_utc()`. -/
def NaiveDT.fromTimestamp (s : Int) : NaiveDT := ⟨s, 0⟩

/-- A row of the `allocatedcredits` table. -/
structure CreditGrant where
  creditid : Int
  userid : Int
  credits : Int
  expireat : NaiveDT
  deriving DecidableEq

/-- The SQL filter `userid = $uid AND expireat > $utc` used by every
credits query. -/
def unexpiredFor (db : List CreditGrant) (uid : Int) (utc : NaiveDT) :
    List CreditGrant :=
  db.filter (fun g => decide (g.userid = uid ∧ NaiveDT.lt utc g.expireat))

/-- SQL `sum(credits)` over a row set. -/
def sumCredits (gs : List CreditGrant) : Int :=
  (gs.map (fun g => g.credits)).sum

/-- SQL `min(expireat)` over a row set (`none` iff the set is empty). -/
def minExpire : List CreditGrant → Option NaiveDT
  | [] => none
  | g :: gs =>
    match minExpire gs with
    | none => some g.expireat
    | some m => if NaiveDT.lt g.expireat m then some g.expireat else some m

/-- The two redis keys `user:{id}:cred:t` / `user:{id}:cred:e` for one
user, plus the TTL argument of the most recent `SET ... EX` pipeline on
them (instrumentation of the cache write). -/
structure BalanceCache where
  credT : Option Int
  credE : Option Int
  lastSetTTL : Option Int
  deriving DecidableEq

/-- `FetchError` from the `Credits` module. -/
inductive FetchError where
  | FailedToObtainRedisConnection
  | FailedToObtainDatabaseConnection
  | FailedToQueryRedis
  | DatabaseQueryFailure
  | FailedToSetPipeline
  deriving DecidableEq

/-- Infrastructure outcomes for one balance fetch, one flag per fallible
call in source order. -/
structure FetchEnv where
  mgetOk : Bool
  pgQueryOk : Bool
  pipeOk : Bool
  deriving DecidableEq

/-- Embedding of `query_credits_result_with_conn`: aggregate the user's
unexpired grants, then write the snapshot back to redis with
`EX = expire_secs - now_secs`, bumped to `1` only when that difference is
negative. -/
def query_credits_result_with_conn (env : FetchEnv) (utc : NaiveDT)
    (user_id : Int) (db : List CreditGrant) (cache : BalanceCache) :
    Except FetchError (Int × NaiveDT × BalanceCache) :=
  if env.pgQueryOk = false then .error .DatabaseQueryFailure else
  let rows := unexpiredFor db user_id utc
  match minExpire rows with
  | none => .ok (0, ⟨0, 0⟩, cache)
  | some expire =>
    let credits := sumCredits rows
    let expire_secs := expire.timestamp
    let diff := expire_secs - utc.timestamp
    let redis_expire_seconds := if diff < 0 then 1 else diff
    if env.pipeOk = false then .error .FailedToSetPipeline else
    .ok (credits, expire,
      { credT := some credits, credE := some expire_secs,
        lastSetTTL := some redis_expire_seconds })

/-- Embedding of `get_total_credits_with_conn`: `MGET` the two cached
keys; on a hit with unexpired `cached_expire` return the snapshot,
otherwise recompute via `query_credits_result_with_conn`. -/
def get_total_credits_with_conn (env : FetchEnv) (utc : NaiveDT)
    (user_id : Int) (db : List CreditGrant) (cache : BalanceCache) :
    Except FetchError (Int × NaiveDT × BalanceCache) :=
  if env.mgetOk = false then .error .FailedToQueryRedis else
  match cache.credE, cache.credT with
  | some cached_expire, some cached_credits =>
    if cached_expire > utc.timestamp then
      .ok (cached_credits, NaiveDT.fromTimestamp cached_expire, cache)
    else query_credits_result_with_conn env utc user_id db cache
  | _, _ => query_credits_result_with_conn env utc user_id db cache

/-- `IncrementTotalCreditsError` (shared by increment and decrement). -/
inductive IncrementTotalCreditsError where
  | RedisConnectionOpenFailure
  | PostgresConnectionOpenFailure
  | NotEnoughCredits
  | PostgresOperationFailure
  | RedisOperationFailure
  | PostgresTransactionFailure
  | BadData
  deriving DecidableEq

/-- The `Control` commands the decrement transaction accumulates before
applying them. -/
inductive Control where
  | DELETE (creditid : Int)
  | UPDATE (creditid : Int) (credits : Int)
  deriving DecidableEq

/-- Result of walking the ordered grants in the decrement transaction:
the remaining need, the accumulated commands, and the `next_expire_at`
recorded at the first partially-consumed grant. -/
structure DrainResult where
  drain : Int
  to_update : List Control
  next_expire_at : Option Int
  deriving DecidableEq

/-- The `for credit_record in credits` loop of `decrement_total_credits`:
delete grants smaller than the need, stop at the first grant that covers
it (deleting on equality, updating in place and recording its expiry
otherwise). -/
def drainWalk : Int → List CreditGrant → DrainResult
  | drain, [] => ⟨drain, [], none⟩
  | drain, g :: gs =>
    if g.credits < drain then
      let r := drainWalk (drain - g.credits) gs
      ⟨r.drain, .DELETE g.creditid :: r.to_update, r.next_expire_at⟩
    else if g.credits = drain then
      ⟨0, [.DELETE g.creditid], none⟩
    else
      ⟨0, [.UPDATE g.creditid (g.credits - drain)], some g.expireat.timestamp⟩

/-- Apply one accumulated command to the `allocatedcredits` table
(the diesel statements filter by `creditid` alone). -/
def applyControl (db : List CreditGrant) : Control → List CreditGrant
  | .DELETE cid => db.filter (fun g => decide (¬ g.creditid = cid))
  | .UPDATE cid c =>
    db.map (fun g => if g.creditid = cid then { g with credits := c } else g)

/-- Apply the accumulated commands in order. -/
def applyControls (db : List CreditGrant) (cs : List Control) :
    List CreditGrant :=
  cs.foldl applyControl db

/-- Stable insertion into a list ordered by ascending `expireat`. -/
def insertByExpire (g : CreditGrant) : List CreditGrant → List CreditGrant
  | [] => [g]
  | h :: t =>
    if NaiveDT.lt g.expireat h.expireat then g :: h :: t
    else h :: insertByExpire g t

/-- The SQL `ORDER BY expireat ASC` of the decrement transaction's
locked read. -/
def sortByExpire : List CreditGrant → List CreditGrant
  | [] => []
  | g :: gs => insertByExpire g (sortByExpire gs)

/-- Outcome of one `decrement_total_credits` call; `panicked` embeds the
`unwrap()` the source performs on the balance pre-check. -/
inductive DecOutcome where
  | panicked
  | err (e : IncrementTotalCreditsError)
  | ok (new_total : Int) (next_expire : NaiveDT)
  deriving DecidableEq

/-- Final state of a decrement call: outcome plus the resulting table
and cache. -/
structure DecResult where
  outcome : DecOutcome
  db : List CreditGrant
  cache : BalanceCache
  deriving DecidableEq

/-- Infrastructure outcomes for one decrement call. -/
structure DecEnv where
  fetch : FetchEnv
  redisConnOk : Bool
  pgConnOk : Bool
  txnOk : Bool
  delPipeOk : Bool
  deriving DecidableEq

/-- Embedding of `decrement_total_credits` (callers pass `None` for both
connections, so both pool fetches run).  `utcFetch` is the clock read of
the balance pre-check, `utcTxn` the one taken inside the transaction. -/
def decrement_total_credits (env : DecEnv) (utcFetch utcTxn : NaiveDT)
    (user_id amount : Int) (db : List CreditGrant) (cache : BalanceCache) :
    DecResult :=
  if env.redisConnOk = false then
    ⟨.err .RedisConnectionOpenFailure, db, cache⟩
  else if env.pgConnOk = false then
    ⟨.err .PostgresConnectionOpenFailure, db, cache⟩
  else
    match get_total_credits_with_conn env.fetch utcFetch user_id db cache with
    | .error _ => ⟨.panicked, db, cache⟩
    | .ok (total_credits, _, cache1) =>
      if total_credits < amount then ⟨.err .NotEnoughCredits, db, cache1⟩
      else if env.txnOk = false then
        ⟨.err .PostgresTransactionFailure, db, cache1⟩
      else
        let rows := sortByExpire (unexpiredFor db user_id utcTxn)
        let r := drainWalk amount rows
        if r.drain > 0 then ⟨.err .BadData, db, cache1⟩
        else
          let db1 := applyControls db r.to_update
          if env.delPipeOk = false then
            ⟨.err .RedisOperationFailure, db1, cache1⟩
          else
            ⟨.ok (total_credits - amount)
               (NaiveDT.fromTimestamp (r.next_expire_at.getD 1)),
             db1, { cache1 with credT := none, credE := none }⟩

/-- Modelled from the spec: the `expires_at` (whole seconds) of the first
partially-consumed grant in walk order — consuming whole grants while
their amount is below the remaining need, with no partial grant when a
grant matches the need exactly. -/
def firstPartialExpiry : Int → List CreditGrant → Option Int
  | _, [] => none
  | need, g :: gs =>
    if g.credits < need then firstPartialExpiry (need - g.credits) gs
    else if g.credits = need then none
    else some g.expireat.timestamp

/-! ## Generation-job worker and delete endpoint -/

/-- The `generation_status` enum of `db-schema`. -/
inductive GenerationStatus where
  | Working
  | Success
  | Failed
  | Deleting
  | Waiting
  deriving DecidableEq

/-- A row of the `generation` table (`db-schema/src/lib.rs`). -/
structure JobRow where
  userid : Int
  id : Int
  status : GenerationStatus
  createdat : NaiveDT
  finishedon : Option NaiveDT
  jobid : Nat
  displayname : String
  options : String
  category : String
  creditsused : Int
  deriving DecidableEq

/-- `engine::GenerateFailure`; the single deterministic failure mode of
the generator is a rejected option (options modelled as `Nat`). -/
inductive GenerateFailure where
  | InvalidOption (opt : Nat)
  deriving DecidableEq

/-- `GenerationError` from `aws-lambda-generate/src/generate.rs`. -/
inductive GenerationError where
  | RedisConnectionFailure
  | PostgresConnectionFailure
  | RedisCommandFailure
  | PostgresCommandFailure
  | InternalGenerationFailure (f : GenerateFailure)
  | SerializeError
  | UUIDParseFailure
  | S3PutError
  | CompressionError
  | DeleteImmediately
  deriving DecidableEq

/-- The durable state the worker and the delete endpoint touch: the
`generation` table, the credit ledger, the object-storage keys
(`{jobid}.rapidl.gz`), and the `gen:job:{id}` status-cache entries
(value and `EX` ttl). -/
structure GenWorld where
  jobs : List JobRow
  grants : List CreditGrant
  s3Keys : List Nat
  jobCache : List (Nat × String × Int)
  deriving DecidableEq

/-- Redis `SET key value EX ttl` on a `gen:job:{id}` key: upsert. -/
def setJobCache (c : List (Nat × String × Int)) (k : Nat) (v : String)
    (ttl : Int) : List (Nat × String × Int) :=
  (k, v, ttl) :: c.filter (fun e => decide (¬ e.1 = k))

/-- The fields of the queue message the worker consumes
(`common_types::Generate::SQSBody`); the generator inputs
(`gen_id`, `opts`, `created_at`) feed only the opaque generator and are
abstracted into `GenEnv.populate`. -/
structure SQSBody where
  user_id : Int
  job_id : Nat
  deriving DecidableEq

deriving instance DecidableEq for Except

/-- Infrastructure and generator outcomes for one worker invocation, one
field per fallible call in source order (the `ff` fields belong to
`flag_as_failure`). -/
structure GenEnv where
  pgConn1Ok : Bool
  populate : Except GenerateFailure Unit
  serializeOk : Bool
  compressOk : Bool
  s3PutOk : Bool
  pgConn2Ok : Bool
  pgUpdateOk : Bool
  redisConnOk : Bool
  redisSetOk : Bool
  finishedAt : NaiveDT
  ffPgConnOk : Bool
  ffPgUpdateOk : Bool
  ffRedisConnOk : Bool
  ffRedisSetOk : Bool
  deriving DecidableEq

/-- The diesel `filter(userid.eq(uid).and(jobid.eq(jid))).first(...)`
lookup on the `generation` table. -/
def findJob (jobs : List JobRow) (uid : Int) (jid : Nat) : Option JobRow :=
  jobs.find? (fun j => decide (j.userid = uid ∧ j.jobid = jid))

/-- The body of the claim transaction in `generate.rs::generate`, given
the row it locked: `Success`/`Failed`/`Deleting` abort with
`DeleteImmediately`, `Working` continues without a row update, `Waiting`
is flipped to `Working`. -/
def claimJob (j : JobRow) (w : GenWorld) (body : SQSBody) :
    Except GenerationError GenWorld :=
  match j.status with
  | .Success => .error .DeleteImmediately
  | .Failed => .error .DeleteImmediately
  | .Deleting => .error .DeleteImmediately
  | .Working => .ok w
  | .Waiting =>
    .ok { w with jobs := w.jobs.map (fun r =>
      if r.userid = body.user_id ∧ r.jobid = body.job_id then
        { r with status := .Working } else r) }

/-- The post-claim pipeline of `generate.rs::generate`: run the
generator, serialize, compress, upload the artifact, update the row to
`Success` with `finishedon` (filtered by `jobid` alone), and set the
status cache to `Success` with `EX 240`. -/
def generateRest (env : GenEnv) (body : SQSBody) (w1 : GenWorld) :
    Except GenerationError Unit × GenWorld :=
  match env.populate with
  | .error f => (.error (.InternalGenerationFailure f), w1)
  | .ok () =>
    if env.serializeOk = false then (.error .SerializeError, w1) else
    if env.compressOk = false then (.error .CompressionError, w1) else
    if env.s3PutOk = false then (.error .S3PutError, w1) else
    let w2 := { w1 with
      s3Keys := body.job_id :: w1.s3Keys.filter (fun k => decide (¬ k = body.job_id)) }
    if env.pgConn2Ok = false then (.error .PostgresConnectionFailure, w2) else
    if env.pgUpdateOk = false then (.error .PostgresCommandFailure, w2) else
    let w3 := { w2 with jobs := w2.jobs.map (fun r =>
      if r.jobid = body.job_id then
        { r with status := .Success, finishedon := some env.finishedAt }
      else r) }
    if env.redisConnOk = false then (.error .RedisConnectionFailure, w3) else
    if env.redisSetOk = false then (.error .RedisCommandFailure, w3) else
    (.ok (), { w3 with
      jobCache := setJobCache w3.jobCache body.job_id "Success" 240 })

/-- Embedding of `generate.rs::generate`: claim the job inside a locked
transaction, then (unless the claim aborted) run the post-claim
pipeline. -/
def generate (env : GenEnv) (w : GenWorld) (body : SQSBody) :
    Except GenerationError Unit × GenWorld :=
  if env.pgConn1Ok = false then (.error .PostgresConnectionFailure, w) else
  match findJob w.jobs body.user_id body.job_id with
  | none => (.error .PostgresCommandFailure, w)
  | some j =>
    match claimJob j w body with
    | .error e => (.error e, w)
    | .ok w1 => generateRest env body w1

/-- Embedding of `main.rs::flag_as_failure`: update the row's status to
`Failed` (filtered by `jobid` only, `finishedon` untouched) and
best-effort set the status cache to `Failed` with `EX 120`; returns
`true` when the queue message should be retried later. -/
def flag_as_failure (env : GenEnv) (w : GenWorld) (jid : Nat) :
    Bool × GenWorld :=
  if env.ffPgConnOk = false then (true, w) else
  if env.ffPgUpdateOk = false then (true, w) else
  let w1 := { w with jobs := w.jobs.map (fun r =>
    if r.jobid = jid then { r with status := .Failed } else r) }
  if env.ffRedisConnOk = false then (false, w1) else
  if env.ffRedisSetOk = false then (false, w1) else
  (false, { w1 with jobCache := setJobCache w1.jobCache jid "Failed" 120 })

/-- Result of the per-record part of `main.rs::handler`: whether the
queue message was acknowledged (deleted), and the resulting world. -/
structure HandlerResult where
  acked : Bool
  world : GenWorld
  deriving DecidableEq

/-- Embedding of the per-record body of `main.rs::handler` for a message
that deserialized successfully: run `generate`, then classify its error
(`DeleteImmediately` acks outright; connection / transaction failures
leave the message for redelivery; everything else goes through
`flag_as_failure` and acks unless that asks for a retry). -/
def handler (env : GenEnv) (w : GenWorld) (body : SQSBody) : HandlerResult :=
  match generate env w body with
  | (.ok (), w1) => ⟨true, w1⟩
  | (.error e, w1) =>
    match e with
    | .DeleteImmediately => ⟨true, w1⟩
    | .RedisConnectionFailure => ⟨false, w1⟩
    | .PostgresConnectionFailure => ⟨false, w1⟩
    | .PostgresCommandFailure => ⟨false, w1⟩
    | _ =>
      match flag_as_failure env w1 body.job_id with
      | (true, w2) => ⟨false, w2⟩
      | (false, w2) => ⟨true, w2⟩

/-- Outcome of the delete endpoint. -/
inductive DeleteOutcome where
  | notFound
  | lockedWorking
  | err
  | okDeleting
  | okSuccess
  deriving DecidableEq

/-- Infrastructure outcomes for one delete request. -/
structure DelEnv where
  pgConnOk : Bool
  s3DeleteOk : Bool
  redisConnOk : Bool
  deriving DecidableEq

/-- Best-effort `DEL gen:job:{id}` performed after a successful delete
transaction. -/
def delJobCache (env : DelEnv) (w : GenWorld) (jid : Nat) : GenWorld :=
  if env.redisConnOk = false then w
  else { w with jobCache := w.jobCache.filter (fun e => decide (¬ e.1 = jid)) }

/-- Embedding of `content.rs::delete_request`: `Working` is refused;
`Waiting` is flagged `Deleting` (row kept); `Success` deletes the S3
artifact first (aborting, world unchanged, if that fails); any row that
reaches the tail of the transaction (`Success`, `Failed`, `Deleting`)
has its record deleted; a committed outcome then best-effort drops the
status-cache key. -/
def delete_request (env : DelEnv) (w : GenWorld) (uid : Int) (jid : Nat) :
    DeleteOutcome × GenWorld :=
  if env.pgConnOk = false then (.err, w) else
  match findJob w.jobs uid jid with
  | none => (.notFound, w)
  | some j =>
    if j.status = .Working then (.lockedWorking, w) else
    if j.status = .Waiting then
      let w1 := { w with jobs := w.jobs.map (fun r =>
        if r.userid = uid ∧ r.jobid = jid then { r with status := .Deleting }
        else r) }
      (.okDeleting, delJobCache env w1 jid)
    else
      if j.status = .Success ∧ env.s3DeleteOk = false then (.err, w) else
      let w1 := if j.status = .Success then
          { w with s3Keys := w.s3Keys.filter (fun k => decide (¬ k = jid)) }
        else w
      let w2 := { w1 with jobs := w1.jobs.filter (fun r =>
        decide (¬ (r.userid = uid ∧ r.jobid = jid))) }
      (.okSuccess, delJobCache env w2 jid)

/-! ## Helper lemmas -/

theorem minExpire_eq_none {gs : List CreditGrant} :
    minExpire gs = none ↔ gs = [] := by
  cases gs with
  | nil => simp [minExpire]
  | cons g gs =>
    have hne : ¬ minExpire (g :: gs) = none := by
      cases hq : minExpire gs with
      | none => simp [minExpire, hq]
      | some m0 =>
        by_cases hlt : NaiveDT.lt g.expireat m0 <;> simp [minExpire, hq, hlt]
    simp [hne]

theorem minExpire_mem {gs : List CreditGrant} {m : NaiveDT}
    (h : minExpire gs = some m) : ∃ g, g ∈ gs ∧ g.expireat = m := by
  induction gs with
  | nil => simp [minExpire] at h
  | cons g gs ih =>
    cases hq : minExpire gs with
    | none =>
      have hcons : minExpire (g :: gs) = some g.expireat := by
        simp [minExpire, hq]
      rw [hcons] at h
      injection h with h
      exact ⟨g, by simp, h⟩
    | some m0 =>
      by_cases hlt : NaiveDT.lt g.expireat m0
      · have hcons : minExpire (g :: gs) = some g.expireat := by
          simp [minExpire, hq, hlt]
        rw [hcons] at h
        injection h with h
        exact ⟨g, by simp, h⟩
      · have hcons : minExpire (g :: gs) = some m0 := by
          simp [minExpire, hq, hlt]
        rw [hcons] at h
        injection h with h
        subst h
        obtain ⟨g0, hg0, he⟩ := ih hq
        exact ⟨g0, by simp [hg0], he⟩

theorem drainWalk_next_eq (need : Int) (gs : List CreditGrant) :
    (drainWalk need gs).next_expire_at = firstPartialExpiry need gs := by
  induction gs generalizing need with
  | nil => rfl
  | cons g gs ih =>
    simp only [drainWalk, firstPartialExpiry]
    split
    · exact ih _
    · split <;> rfl

theorem find?_filter_decide_not {α : Type} (P : α → Prop) [DecidablePred P]
    (l : List α) :
    (l.filter (fun a => decide (¬ P a))).find? (fun a => decide (P a)) = none := by
  rw [List.find?_eq_none]
  intro a ha hpa
  have hm := List.mem_filter.mp ha
  exact (of_decide_eq_true hm.2) (of_decide_eq_true hpa)

theorem delJobCache_jobs (env : DelEnv) (w : GenWorld) (jid : Nat) :
    (delJobCache env w jid).jobs = w.jobs := by
  unfold delJobCache
  split <;> rfl

theorem claimJob_grants_unchanged {j : JobRow} {w w1 : GenWorld}
    {body : SQSBody} (h : claimJob j w body = .ok w1) :
    w1.grants = w.grants := by
  unfold claimJob at h
  cases hst : j.status <;> rw [hst] at h
  case Working =>
    injection h with h
    rw [← h]
  case Waiting =>
    injection h with h
    rw [← h]
  all_goals exact Except.noConfusion h

theorem generateRest_grants_unchanged (env : GenEnv) (body : SQSBody)
    (w1 : GenWorld) : (generateRest env body w1).2.grants = w1.grants := by
  unfold generateRest
  cases hp : env.populate with
  | error f => rfl
  | ok u =>
    cases u
    repeat' split
    all_goals rfl

theorem generate_grants_unchanged (env : GenEnv) (w : GenWorld)
    (body : SQSBody) : (generate env w body).2.grants = w.grants := by
  unfold generate
  split
  · rfl
  · split
    · rfl
    · rename_i j heq
      cases hc : claimJob j w body with
      | error e => rfl
      | ok w1 =>
        exact (generateRest_grants_unchanged env body w1).trans
          (claimJob_grants_unchanged hc)

theorem flag_as_failure_grants_unchanged (env : GenEnv) (w : GenWorld)
    (jid : Nat) : (flag_as_failure env w jid).2.grants = w.grants := by
  unfold flag_as_failure
  repeat' split
  all_goals rfl

/-! ## Claim theorems: credit ledger -/

/-- C4: for a user whose unexpired grants are exactly
`{10 credits expiring at t+1h, 5 credits expiring at t+2h}` (here `t = 0`,
alongside another user's grant and an already-expired grant of the same
user), `decrement(12)` deletes the 10-credit grant, reduces the 5-credit
grant in place to 3, leaves every other grant unchanged, and returns the
new earliest expiry `t+2h`: grants are consumed in ascending order of
`expires_at`. -/
theorem c4_fifo_by_expiry_example :
    decrement_total_credits ⟨⟨true, true, true⟩, true, true, true, true⟩
      ⟨0, 0⟩ ⟨0, 0⟩ 7 12
      [⟨1, 7, 10, ⟨3600, 0⟩⟩, ⟨2, 7, 5, ⟨7200, 0⟩⟩,
       ⟨3, 9, 100, ⟨9000, 0⟩⟩, ⟨4, 7, 50, ⟨-5, 0⟩⟩]
      ⟨none, none, none⟩ =
      ⟨.ok 3 ⟨7200, 0⟩,
       [⟨2, 7, 3, ⟨7200, 0⟩⟩, ⟨3, 9, 100, ⟨9000, 0⟩⟩, ⟨4, 7, 50, ⟨-5, 0⟩⟩],
       ⟨none, none, some 3600⟩⟩ := by decide

/-- C6 counterexample: with grants `{5 @ t+100s, 7 @ t+200s}`,
`decrement(5)` consumes the first grant exactly, leaves a balance of 7,
and still returns the sentinel "no credits left" expiry
(`from_timestamp(1)`): the sentinel is not returned exactly when the
remaining balance is zero. -/
theorem c6_sentinel_without_zero_balance :
    decrement_total_credits ⟨⟨true, true, true⟩, true, true, true, true⟩
      ⟨0, 0⟩ ⟨0, 0⟩ 7 5
      [⟨1, 7, 5, ⟨100, 0⟩⟩, ⟨2, 7, 7, ⟨200, 0⟩⟩] ⟨none, none, none⟩ =
      ⟨.ok 7 (NaiveDT.fromTimestamp 1), [⟨2, 7, 7, ⟨200, 0⟩⟩],
       ⟨none, none, some 100⟩⟩ ∧
    ¬ sumCredits (unexpiredFor [⟨2, 7, 7, ⟨200, 0⟩⟩] 7 ⟨0, 0⟩) = 0 := by
  decide

/-- C6 (amended): a successful decrement returns the pair
`(pre-check total − amount, e)` where `e` is the `expires_at` (whole
seconds) of the first partially-consumed grant in ascending-expiry walk
order when one exists, and the sentinel `from_timestamp(1)` whenever no
grant is partially consumed — which includes cases where the remaining
balance is positive. -/
theorem c6_success_returns_total_and_first_partial_expiry
    (env : DecEnv) (utcFetch utcTxn : NaiveDT) (uid amount : Int)
    (db : List CreditGrant) (cache : BalanceCache)
    (total : Int) (exp : NaiveDT) (cache1 : BalanceCache)
    (hfetch : get_total_credits_with_conn env.fetch utcFetch uid db cache =
      .ok (total, exp, cache1))
    (t : Int) (nd : NaiveDT)
    (hok : (decrement_total_credits env utcFetch utcTxn uid amount db cache).outcome =
      .ok t nd) :
    t = total - amount ∧
    nd = NaiveDT.fromTimestamp
      ((firstPartialExpiry amount (sortByExpire (unexpiredFor db uid utcTxn))).getD 1) := by
  simp only [decrement_total_credits, hfetch] at hok
  split at hok
  · simp at hok
  split at hok
  · simp at hok
  split at hok
  · simp at hok
  split at hok
  · simp at hok
  split at hok
  · simp at hok
  split at hok
  · simp at hok
  injection hok with h1 h2
  constructor
  · exact h1.symm
  · rw [← h2, drainWalk_next_eq]

/-- C6 witness: with grants `{5 @ 100, 7 @ 200}` and `decrement(6)`,
the call succeeds returning `(12 − 6, expiry 200)` — the 7-credit grant
is the first partially-consumed one. -/
theorem c6_success_returns_witness :
    (6 : Int) = 12 - 6 ∧
    NaiveDT.fromTimestamp 200 = NaiveDT.fromTimestamp
      ((firstPartialExpiry 6 (sortByExpire (unexpiredFor
        [⟨1, 7, 5, ⟨100, 0⟩⟩, ⟨2, 7, 7, ⟨200, 0⟩⟩] 7 ⟨0, 0⟩))).getD 1) :=
  c6_success_returns_total_and_first_partial_expiry
    ⟨⟨true, true, true⟩, true, true, true, true⟩ ⟨0, 0⟩ ⟨0, 0⟩ 7 6
    [⟨1, 7, 5, ⟨100, 0⟩⟩, ⟨2, 7, 7, ⟨200, 0⟩⟩] ⟨none, none, none⟩
    12 ⟨100, 0⟩ ⟨some 12, some 100, some 100⟩ (by decide)
    6 (NaiveDT.fromTimestamp 200) (by decide)

/-- C7: when the transaction's walk over the user's unexpired grants in
ascending-expiry order leaves the remaining need positive, the decrement
fails with `BadData` and applies no grant deletion or update: the table
is returned unchanged (only the pre-check's cache snapshot, `cache1`,
may have been written). -/
theorem c7_unsatisfied_drain_baddata_no_write
    (env : DecEnv) (utcFetch utcTxn : NaiveDT) (uid amount : Int)
    (db : List CreditGrant) (cache : BalanceCache)
    (total : Int) (exp : NaiveDT) (cache1 : BalanceCache)
    (hredis : env.redisConnOk = true) (hpg : env.pgConnOk = true)
    (htxn : env.txnOk = true)
    (hfetch : get_total_credits_with_conn env.fetch utcFetch uid db cache =
      .ok (total, exp, cache1))
    (htotal : ¬ total < amount)
    (hdrain : (drainWalk amount (sortByExpire (unexpiredFor db uid utcTxn))).drain > 0) :
    decrement_total_credits env utcFetch utcTxn uid amount db cache =
      ⟨.err .BadData, db, cache1⟩ := by
  simp [decrement_total_credits, hredis, hpg, htxn, hfetch, htotal, hdrain]

/-- C7 witness: a stale cached total of 100 passes the pre-check while
the table holds no grants at all; the walk leaves need `5` and the call
fails with `BadData`, leaving the (empty) table unchanged. -/
theorem c7_unsatisfied_drain_witness :
    decrement_total_credits ⟨⟨true, true, true⟩, true, true, true, true⟩
      ⟨0, 0⟩ ⟨0, 0⟩ 7 5 [] ⟨some 100, some 1000, none⟩ =
      ⟨.err .BadData, [], ⟨some 100, some 1000, none⟩⟩ :=
  c7_unsatisfied_drain_baddata_no_write
    ⟨⟨true, true, true⟩, true, true, true, true⟩ ⟨0, 0⟩ ⟨0, 0⟩ 7 5 []
    ⟨some 100, some 1000, none⟩ 100 (NaiveDT.fromTimestamp 1000)
    ⟨some 100, some 1000, none⟩ rfl rfl rfl (by decide) (by decide) (by decide)

/-- C9 counterexample: with `now = ⟨100 s, 0 ns⟩` and a single grant
expiring at `⟨100 s, 5 ns⟩` — strictly later than now but less than one
second later (same whole-second timestamp) — the recompute path writes
the snapshot with TTL `0`, not the claimed floor of `1`. -/
theorem c9_subsecond_ttl_not_floored :
    query_credits_result_with_conn ⟨true, true, true⟩ ⟨100, 0⟩ 7
      [⟨1, 7, 3, ⟨100, 5⟩⟩] ⟨none, none, none⟩ =
      .ok (3, ⟨100, 5⟩, ⟨some 3, some 100, some 0⟩) ∧
    NaiveDT.lt ⟨100, 0⟩ ⟨100, 5⟩ ∧
    (⟨100, 5⟩ : NaiveDT).secs = (⟨100, 0⟩ : NaiveDT).secs ∧
    ¬ (⟨some 3, some 100, some 0⟩ : BalanceCache).lastSetTTL = some 1 := by
  decide

/-- C9 (amended): whenever the recompute path returns a snapshot for a
user with at least one unexpired grant, the TTL written is exactly the
whole-second difference `earliest_expiry − now`, which is never negative
(the aggregation only sees grants with `expireat > now`), so the
floor-to-1 branch — which fires only on negative values — never applies;
a sub-second positive difference therefore yields TTL `0`. -/
theorem c9_recompute_ttl_whole_seconds (env : FetchEnv) (utc : NaiveDT)
    (uid : Int) (db : List CreditGrant) (cache : BalanceCache)
    (c : Int) (e : NaiveDT) (cache2 : BalanceCache)
    (hne : ¬ unexpiredFor db uid utc = [])
    (h : query_credits_result_with_conn env utc uid db cache =
      .ok (c, e, cache2)) :
    cache2.lastSetTTL = some (e.timestamp - utc.timestamp) ∧
    0 ≤ e.timestamp - utc.timestamp := by
  cases hq : minExpire (unexpiredFor db uid utc) with
  | none => exact absurd (minExpire_eq_none.mp hq) hne
  | some m =>
    obtain ⟨g, hgmem, hgm⟩ := minExpire_mem hq
    have hlt : NaiveDT.lt utc g.expireat :=
      (of_decide_eq_true (List.mem_filter.mp hgmem).2).2
    have hsecs : utc.secs ≤ m.secs := by
      rw [← hgm]
      rcases hlt with h1 | ⟨h1, _⟩
      · exact le_of_lt h1
      · exact le_of_eq h1
    simp only [query_credits_result_with_conn, hq] at h
    split at h
    · simp at h
    split at h
    · simp at h
    simp only [Except.ok.injEq, Prod.mk.injEq] at h
    obtain ⟨h1, h2, h3⟩ := h
    subst h2
    subst h3
    have hnn : 0 ≤ m.timestamp - utc.timestamp := by
      simp only [NaiveDT.timestamp]
      omega
    constructor
    · simp [if_neg (not_lt.mpr hnn)]
      intro hcon
      simp only [NaiveDT.timestamp] at hcon
      omega
    · exact hnn

/-- C9 witness: the theorem applied at `now = ⟨100, 0⟩`, single grant
expiring `⟨100, 5⟩`: the written TTL equals the whole-second difference
`0`, which is non-negative. -/
theorem c9_recompute_ttl_witness :
    (⟨some 3, some 100, some 0⟩ : BalanceCache).lastSetTTL =
      some ((⟨100, 5⟩ : NaiveDT).timestamp - (⟨100, 0⟩ : NaiveDT).timestamp) ∧
    0 ≤ (⟨100, 5⟩ : NaiveDT).timestamp - (⟨100, 0⟩ : NaiveDT).timestamp :=
  c9_recompute_ttl_whole_seconds ⟨true, true, true⟩ ⟨100, 0⟩ 7
    [⟨1, 7, 3, ⟨100, 5⟩⟩] ⟨none, none, none⟩ 3 ⟨100, 5⟩
    ⟨some 3, some 100, some 0⟩ (by decide) (by decide)

/-- C10: whenever the balance pre-check inside `decrement_total_credits`
fails with a `FetchError` (after both connections were obtained), the
call panics — the `unwrap()` on the fetch result — instead of returning
any of the declared error variants, and performs no state change. -/
theorem c10_precheck_fetch_error_panics
    (env : DecEnv) (utcFetch utcTxn : NaiveDT) (uid amount : Int)
    (db : List CreditGrant) (cache : BalanceCache) (e : FetchError)
    (hredis : env.redisConnOk = true) (hpg : env.pgConnOk = true)
    (hfetch : get_total_credits_with_conn env.fetch utcFetch uid db cache =
      .error e) :
    decrement_total_credits env utcFetch utcTxn uid amount db cache =
      ⟨.panicked, db, cache⟩ := by
  simp [decrement_total_credits, hredis, hpg, hfetch]

/-- C10 witness: with the redis `MGET` failing, the pre-check returns
`FailedToQueryRedis` and the decrement panics. -/
theorem c10_precheck_fetch_error_witness :
    decrement_total_credits ⟨⟨false, true, true⟩, true, true, true, true⟩
      ⟨0, 0⟩ ⟨0, 0⟩ 7 5 [] ⟨none, none, none⟩ =
      ⟨.panicked, [], ⟨none, none, none⟩⟩ :=
  c10_precheck_fetch_error_panics
    ⟨⟨false, true, true⟩, true, true, true, true⟩ ⟨0, 0⟩ ⟨0, 0⟩ 7 5 []
    ⟨none, none, none⟩ .FailedToQueryRedis rfl rfl (by decide)

/-! ## Claim theorems: worker pipeline and delete endpoint -/

/-- C1 counterexample: a user holding 2 remaining credits (5 minus the 3
debited at submission) whose 3-option job fails terminally
(`InvalidOption`): the job row ends in `Failed` and the message is
acknowledged, but the ledger still holds exactly 2 credits — no
compensating increment is issued, the balance is not restored to 5. -/
theorem c1_terminal_failure_no_refund_example :
    handler
      ⟨true, .error (.InvalidOption 0), true, true, true, true, true, true, true,
       ⟨50, 0⟩, true, true, true, true⟩
      ⟨[⟨7, 1, .Waiting, ⟨10, 0⟩, none, 42, "", "", "", 3⟩],
       [⟨1, 7, 2, ⟨9999, 0⟩⟩], [], []⟩
      ⟨7, 42⟩ =
      ⟨true, ⟨[⟨7, 1, .Failed, ⟨10, 0⟩, none, 42, "", "", "", 3⟩],
       [⟨1, 7, 2, ⟨9999, 0⟩⟩], [], [(42, "Failed", 120)]⟩⟩ ∧
    sumCredits (unexpiredFor [⟨1, 7, 2, ⟨9999, 0⟩⟩] 7 ⟨20, 0⟩) = 2 := by
  decide

/-- C1 (amended): on a terminal generation failure the worker marks the
row `Failed` and acknowledges, but never issues a compensating
increment: no path through the worker's message handling touches the
credit ledger, so the user's grants are unchanged by every run. -/
theorem c1_handler_never_touches_ledger (env : GenEnv) (w : GenWorld)
    (body : SQSBody) : (handler env w body).world.grants = w.grants := by
  unfold handler
  rcases hg : generate env w body with ⟨res, w1⟩
  have hw1 : w1.grants = w.grants := by
    have hx := generate_grants_unchanged env w body
    rw [hg] at hx
    exact hx
  cases res with
  | ok u => cases u; exact hw1
  | error e =>
    cases e
    case DeleteImmediately => exact hw1
    case RedisConnectionFailure => exact hw1
    case PostgresConnectionFailure => exact hw1
    case PostgresCommandFailure => exact hw1
    all_goals
      show (match flag_as_failure env w1 body.job_id with
        | (true, w2) => ({ acked := false, world := w2 } : HandlerResult)
        | (false, w2) => { acked := true, world := w2 }).world.grants = w.grants
    all_goals
      have hf := flag_as_failure_grants_unchanged env w1 body.job_id
    all_goals
      rcases hfa : flag_as_failure env w1 body.job_id with ⟨retry, w2⟩
    all_goals rw [hfa] at hf
    all_goals cases retry
    all_goals exact hf.trans hw1

/-- C2 counterexample: a queue message whose row is already `Working`
does not make the worker exit without side effects: generation is
re-run, the artifact is uploaded, the row is updated to `Success` with
`finishedon`, and the status cache is written. -/
theorem c2_duplicate_working_side_effects_example :
    handler
      ⟨true, .ok (), true, true, true, true, true, true, true, ⟨50, 0⟩,
       true, true, true, true⟩
      ⟨[⟨7, 1, .Working, ⟨10, 0⟩, none, 42, "", "", "", 3⟩],
       [⟨1, 7, 2, ⟨9999, 0⟩⟩], [], []⟩
      ⟨7, 42⟩ =
      ⟨true, ⟨[⟨7, 1, .Success, ⟨10, 0⟩, some ⟨50, 0⟩, 42, "", "", "", 3⟩],
       [⟨1, 7, 2, ⟨9999, 0⟩⟩], [42], [(42, "Success", 240)]⟩⟩ := by
  decide

/-- C2 (amended): when the claim finds the row already `Working`, the
transaction performs no row update and reports success, and the worker
proceeds to re-run generation: whenever the remaining steps succeed it
uploads the artifact, updates every row with this `jobid` to `Success`
with `finishedon`, writes the `Success` cache entry, and acknowledges
the message. -/
theorem c2_working_claim_continues_generation (env : GenEnv) (w : GenWorld)
    (body : SQSBody) (j : JobRow)
    (hconn : env.pgConn1Ok = true)
    (hfind : findJob w.jobs body.user_id body.job_id = some j)
    (hst : j.status = GenerationStatus.Working)
    (hpop : env.populate = .ok ())
    (hser : env.serializeOk = true) (hcmp : env.compressOk = true)
    (hs3 : env.s3PutOk = true) (hpg2 : env.pgConn2Ok = true)
    (hupd : env.pgUpdateOk = true) (hrc : env.redisConnOk = true)
    (hrs : env.redisSetOk = true) :
    handler env w body = ⟨true,
      { jobs := w.jobs.map (fun r =>
          if r.jobid = body.job_id then
            { r with status := .Success, finishedon := some env.finishedAt }
          else r),
        grants := w.grants,
        s3Keys := body.job_id :: w.s3Keys.filter (fun k => decide (¬ k = body.job_id)),
        jobCache := setJobCache w.jobCache body.job_id "Success" 240 }⟩ := by
  simp [handler, generate, claimJob, generateRest, hconn, hfind, hst, hpop,
        hser, hcmp, hs3, hpg2, hupd, hrc, hrs]

/-- C2 witness: the theorem applied to a one-row `Working` world with
every downstream step succeeding. -/
theorem c2_working_claim_continues_witness :
    handler
      ⟨true, .ok (), true, true, true, true, true, true, true, ⟨50, 0⟩,
       true, true, true, true⟩
      ⟨[⟨9, 1, .Working, ⟨10, 0⟩, none, 43, "", "", "", 3⟩],
       [⟨1, 9, 2, ⟨9999, 0⟩⟩], [], []⟩
      ⟨9, 43⟩ =
      ⟨true, ⟨[⟨9, 1, .Success, ⟨10, 0⟩, some ⟨50, 0⟩, 43, "", "", "", 3⟩],
       [⟨1, 9, 2, ⟨9999, 0⟩⟩], [43], [(43, "Success", 240)]⟩⟩ :=
  c2_working_claim_continues_generation
    ⟨true, .ok (), true, true, true, true, true, true, true, ⟨50, 0⟩,
     true, true, true, true⟩
    ⟨[⟨9, 1, .Working, ⟨10, 0⟩, none, 43, "", "", "", 3⟩],
     [⟨1, 9, 2, ⟨9999, 0⟩⟩], [], []⟩
    ⟨9, 43⟩ ⟨9, 1, .Working, ⟨10, 0⟩, none, 43, "", "", "", 3⟩
    rfl (by decide) rfl rfl rfl rfl rfl rfl rfl rfl rfl

/-- C3 counterexample: a job found in `Deleting` at claim time makes the
worker acknowledge the message and do nothing else: the world —
including the user's 2-credit ledger and the still-present `Deleting`
row — is completely unchanged, so no refund is issued and the row is
not deleted. -/
theorem c3_deleting_no_refund_no_delete_example :
    handler
      ⟨true, .ok (), true, true, true, true, true, true, true, ⟨50, 0⟩,
       true, true, true, true⟩
      ⟨[⟨7, 1, .Deleting, ⟨10, 0⟩, none, 42, "", "", "", 3⟩],
       [⟨1, 7, 2, ⟨9999, 0⟩⟩], [], []⟩
      ⟨7, 42⟩ =
      ⟨true, ⟨[⟨7, 1, .Deleting, ⟨10, 0⟩, none, 42, "", "", "", 3⟩],
       [⟨1, 7, 2, ⟨9999, 0⟩⟩], [], []⟩⟩ := by
  decide

/-- C3 (amended): when the claim finds the row in `Deleting`, the worker
acknowledges (deletes) the queue message and performs no other action:
generation is not run, and — contrary to the claim — no refund is
issued and the job row is not deleted; the world is returned
unchanged. -/
theorem c3_deleting_acks_without_side_effects (env : GenEnv) (w : GenWorld)
    (body : SQSBody) (j : JobRow)
    (hconn : env.pgConn1Ok = true)
    (hfind : findJob w.jobs body.user_id body.job_id = some j)
    (hst : j.status = GenerationStatus.Deleting) :
    handler env w body = ⟨true, w⟩ := by
  simp [handler, generate, claimJob, hconn, hfind, hst]

/-- C3 witness: the theorem applied to a one-row `Deleting` world. -/
theorem c3_deleting_acks_witness :
    handler
      ⟨true, .ok (), true, true, true, true, true, true, true, ⟨50, 0⟩,
       true, true, true, true⟩
      ⟨[⟨9, 1, .Deleting, ⟨10, 0⟩, none, 43, "", "", "", 3⟩],
       [⟨1, 9, 2, ⟨9999, 0⟩⟩], [], []⟩
      ⟨9, 43⟩ =
      ⟨true, ⟨[⟨9, 1, .Deleting, ⟨10, 0⟩, none, 43, "", "", "", 3⟩],
       [⟨1, 9, 2, ⟨9999, 0⟩⟩], [], []⟩⟩ :=
  c3_deleting_acks_without_side_effects
    ⟨true, .ok (), true, true, true, true, true, true, true, ⟨50, 0⟩,
     true, true, true, true⟩
    ⟨[⟨9, 1, .Deleting, ⟨10, 0⟩, none, 43, "", "", "", 3⟩],
     [⟨1, 9, 2, ⟨9999, 0⟩⟩], [], []⟩
    ⟨9, 43⟩ ⟨9, 1, .Deleting, ⟨10, 0⟩, none, 43, "", "", "", 3⟩
    rfl (by decide) rfl

/-- C5 counterexample: starting from a `Waiting` row with `finishedon`
null, one worker run whose only failure is the status-cache `SET` after
the `Success` row update ends with the row in state `Failed` and
`finishedon` non-null — the very record the claimed invariant says is
unreachable. -/
theorem c5_failed_with_finishedon_example :
    handler
      ⟨true, .ok (), true, true, true, true, true, true, false, ⟨50, 0⟩,
       true, true, true, true⟩
      ⟨[⟨7, 1, .Waiting, ⟨10, 0⟩, none, 42, "", "", "", 3⟩],
       [⟨1, 7, 2, ⟨9999, 0⟩⟩], [], []⟩
      ⟨7, 42⟩ =
      ⟨true, ⟨[⟨7, 1, .Failed, ⟨10, 0⟩, some ⟨50, 0⟩, 42, "", "", "", 3⟩],
       [⟨1, 7, 2, ⟨9999, 0⟩⟩], [42], [(42, "Failed", 120)]⟩⟩ ∧
    ¬ (some (⟨50, 0⟩ : NaiveDT) = none) := by
  decide

/-- C5 (amended): `finishedon` is written only by the `Success` row
update and is never cleared afterwards: for every single-row world whose
job is claimed from `Waiting`, if every step up to and including the
`Success` row update succeeds but the status-cache `SET` fails, the
failure handling flips the row to `Failed` while `finishedon` keeps the
`Success` timestamp — so rows with state `Failed` and `finishedon`
non-null are reachable. -/
theorem c5_success_then_failed_cache_write (env : GenEnv) (w : GenWorld)
    (body : SQSBody) (j : JobRow)
    (hjobs : w.jobs = [j])
    (hju : j.userid = body.user_id) (hjj : j.jobid = body.job_id)
    (hst : j.status = GenerationStatus.Waiting)
    (hconn : env.pgConn1Ok = true)
    (hpop : env.populate = .ok ())
    (hser : env.serializeOk = true) (hcmp : env.compressOk = true)
    (hs3 : env.s3PutOk = true) (hpg2 : env.pgConn2Ok = true)
    (hupd : env.pgUpdateOk = true) (hrc : env.redisConnOk = true)
    (hrs : env.redisSetOk = false)
    (hff1 : env.ffPgConnOk = true) (hff2 : env.ffPgUpdateOk = true)
    (hfr1 : env.ffRedisConnOk = true) (hfr2 : env.ffRedisSetOk = true) :
    handler env w body = ⟨true,
      { jobs := [{ j with status := .Failed, finishedon := some env.finishedAt }],
        grants := w.grants,
        s3Keys := body.job_id :: w.s3Keys.filter (fun k => decide (¬ k = body.job_id)),
        jobCache := setJobCache w.jobCache body.job_id "Failed" 120 }⟩ := by
  simp [handler, generate, claimJob, generateRest, flag_as_failure, findJob,
        hjobs, hju, hjj, hst, hconn, hpop, hser, hcmp, hs3, hpg2, hupd, hrc,
        hrs, hff1, hff2, hfr1, hfr2]

/-- C5 witness: the theorem applied to a one-row `Waiting` world whose
status-cache `SET` fails after the `Success` update. -/
theorem c5_success_then_failed_cache_write_witness :
    handler
      ⟨true, .ok (), true, true, true, true, true, true, false, ⟨50, 0⟩,
       true, true, true, true⟩
      ⟨[⟨9, 1, .Waiting, ⟨10, 0⟩, none, 43, "", "", "", 3⟩],
       [⟨1, 9, 2, ⟨9999, 0⟩⟩], [], []⟩
      ⟨9, 43⟩ =
      ⟨true, ⟨[⟨9, 1, .Failed, ⟨10, 0⟩, some ⟨50, 0⟩, 43, "", "", "", 3⟩],
       [⟨1, 9, 2, ⟨9999, 0⟩⟩], [43], [(43, "Failed", 120)]⟩⟩ :=
  c5_success_then_failed_cache_write
    ⟨true, .ok (), true, true, true, true, true, true, false, ⟨50, 0⟩,
     true, true, true, true⟩
    ⟨[⟨9, 1, .Waiting, ⟨10, 0⟩, none, 43, "", "", "", 3⟩],
     [⟨1, 9, 2, ⟨9999, 0⟩⟩], [], []⟩
    ⟨9, 43⟩ ⟨9, 1, .Waiting, ⟨10, 0⟩, none, 43, "", "", "", 3⟩
    rfl rfl rfl rfl rfl rfl rfl rfl rfl rfl rfl rfl rfl rfl rfl rfl rfl

/-- C8 counterexample: a user-initiated delete of a job in state
`Failed` — a state other than `Waiting` and `Success` — is accepted and
removes the record. -/
theorem c8_failed_row_deleted_example :
    delete_request ⟨true, true, true⟩
      ⟨[⟨7, 1, .Failed, ⟨10, 0⟩, none, 42, "", "", "", 3⟩], [], [], []⟩ 7 42 =
      (.okSuccess, ⟨[], [], [], []⟩) := by
  decide

/-- C8 (amended): a user-initiated delete of a job in state `Working` is
rejected without changing the row, but `Waiting` and `Success` are not
the only states from which deletion is accepted: a delete of a job in
state `Failed` or `Deleting` is accepted and removes the record. -/
theorem c8_delete_request_state_cases (env : DelEnv) (w : GenWorld)
    (uid : Int) (jid : Nat) (j : JobRow)
    (hconn : env.pgConnOk = true)
    (hfind : findJob w.jobs uid jid = some j) :
    (j.status = GenerationStatus.Working →
      delete_request env w uid jid = (.lockedWorking, w)) ∧
    (j.status = GenerationStatus.Failed ∨ j.status = GenerationStatus.Deleting →
      (delete_request env w uid jid).1 = .okSuccess ∧
      findJob (delete_request env w uid jid).2.jobs uid jid = none) := by
  constructor
  · intro hst
    simp [delete_request, hconn, hfind, hst]
  · intro hst
    have hnw : ¬ j.status = GenerationStatus.Working := by
      rcases hst with h | h <;> simp [h]
    have hnwait : ¬ j.status = GenerationStatus.Waiting := by
      rcases hst with h | h <;> simp [h]
    have hns : ¬ j.status = GenerationStatus.Success := by
      rcases hst with h | h <;> simp [h]
    constructor
    · simp [delete_request, hconn, hfind, hnw, hnwait, hns]
    · have hjobs2 : (delete_request env w uid jid).2.jobs =
        w.jobs.filter (fun r => decide (¬ (r.userid = uid ∧ r.jobid = jid))) := by
        simp [delete_request, hconn, hfind, hnw, hnwait, hns, delJobCache_jobs]
      unfold findJob
      rw [hjobs2]
      exact find?_filter_decide_not (fun r => r.userid = uid ∧ r.jobid = jid) w.jobs

/-- C8 witness: the theorem's accepted-deletion case applied to a
one-row `Failed` world. -/
theorem c8_delete_request_witness :
    (delete_request ⟨true, true, true⟩
      ⟨[⟨9, 1, .Failed, ⟨10, 0⟩, none, 43, "", "", "", 3⟩], [], [], []⟩ 9 43).1 =
      .okSuccess ∧
    findJob (delete_request ⟨true, true, true⟩
      ⟨[⟨9, 1, .Failed, ⟨10, 0⟩, none, 43, "", "", "", 3⟩], [], [], []⟩ 9 43).2.jobs
      9 43 = none :=
  (c8_delete_request_state_cases ⟨true, true, true⟩
    ⟨[⟨9, 1, .Failed, ⟨10, 0⟩, none, 43, "", "", "", 3⟩], [], [], []⟩ 9 43
    ⟨9, 1, .Failed, ⟨10, 0⟩, none, 43, "", "", "", 3⟩ rfl (by decide)).2
    (Or.inl rfl)

end Rapidl
